import Mathlib

/-!
Shallow embedding of the streaming DXF reader/writer core
(`src/ezdxf/addons/iterdxf.py`) and of the collaborator interfaces it
consumes, together with theorems settling the frozen claims about it.

The wire format is a byte stream of CR/LF-terminated lines, alternating a
group-code line and a value line.  We model a byte as a `Nat` (< 256 in
practice), a line as a `List Nat` (terminator included), and a stream as a
`List Line`.
-/

namespace IterDXFVerify

abbrev Byte := Nat

abbrev Line := List Byte

/-- ASCII bytes of a pure-ASCII literal string. -/
def bsOf (s : String) : List Byte := s.data.map Char.toNat

/-- Bytes treated as whitespace by the integer parser (space, tab, CR, LF),
matching the byte classes stripped by the host language's integer
conversion. -/
def isWS (b : Byte) : Bool := b = 32 || b = 9 || b = 13 || b = 10

/-- Strip leading and trailing whitespace bytes. -/
def trimWS (l : List Byte) : List Byte :=
  ((l.dropWhile isWS).reverse.dropWhile isWS).reverse

/-- Digits of a decimal numeral, or `none` when empty or non-numeric. -/
def digitsToNat : List Byte → Option Nat
  | [] => none
  | ds =>
    ds.foldl
      (fun acc d =>
        acc.bind fun a => if 48 ≤ d ∧ d ≤ 57 then some (a * 10 + (d - 48)) else none)
      (some 0)

/-- Parse an integer from raw bytes the way the host integer conversion on a
read line does: surrounding whitespace tolerated, optional sign, at least
one digit; anything else is `none`. -/
def parseIntBytes (l : List Byte) : Option Int :=
  match trimWS l with
  | 43 :: ds => (digitsToNat ds).map Int.ofNat
  | 45 :: ds => (digitsToNat ds).map (fun n => -(n : Int))
  | ds => (digitsToNat ds).map Int.ofNat

/-- Parse an integer from a decoded string value. -/
def parseIntStr (s : String) : Option Int := parseIntBytes (s.data.map Char.toNat)

/-- Strip trailing CR/LF bytes, as done on every value line that is read. -/
def rstripCRLF (l : List Byte) : List Byte :=
  (l.reverse.dropWhile (fun b => b = 13 || b = 10)).reverse

/-- Modelled from the spec: the text-encoding collaborator identifies each
supported codec by name.  A small injective tag per codec. -/
def encId : String → Nat
  | "cp1252" => 1
  | "utf-8" => 2
  | "cp1251" => 3
  | _ => 0

/-- Modelled from the spec: decoding one byte under a codec.  All codecs
agree on the ASCII range; a non-ASCII byte decodes to a codec-dependent
character (distinct codecs give distinct characters). -/
def decodeByte (enc : String) (b : Byte) : Char :=
  if b < 128 then Char.ofNat b else Char.ofNat (1000 * encId enc + b % 256)

/-- Modelled from the spec: decoding a byte sequence under a codec. -/
def decodeBytes (enc : String) (l : List Byte) : String :=
  String.mk (l.map (decodeByte enc))

/-- Modelled from the spec: encoding a string back to bytes; inverse of
`decodeBytes` for text produced by the matching codec. -/
def encodeStr (enc : String) (s : String) : List Byte :=
  let _ := enc
  s.data.map (fun c => if c.toNat < 128 then c.toNat else c.toNat % 1000)

/-- Modelled from the spec: the encoding-resolution collaborator
(`toencoding`) maps a declared codepage name to a text-encoding identifier;
unknown codepages fall back to the documented legacy default, never a hard
failure. -/
def toencoding (cp : String) : String :=
  if cp = "ANSI_1251" then "cp1251"
  else if cp = "ANSI_1252" then "cp1252"
  else "cp1252"

/-- Lexicographic comparison on character code points, matching the host
language's string comparison used for version strings. -/
def charsLt : List Char → List Char → Bool
  | [], [] => false
  | [], _ :: _ => true
  | _ :: _, [] => false
  | a :: as, b :: bas =>
    if a.toNat < b.toNat then true
    else if b.toNat < a.toNat then false
    else charsLt as bas

/-- `strLtB a b` is the host language's `a < b` on strings. -/
def strLtB (a b : String) : Bool := charsLt a.data b.data

/-- `verGT v base` models the source's `version > base` comparison. -/
def verGT (v base : String) : Bool := strLtB base v

/-- Structure errors raised by the core (`DXFStructureError` with the
messages used at each raise site). -/
inductive DXFErr where
  /-- Tokenizer: code line unparseable (`none`) or out of range (`some c`). -/
  | invalidGroupCode : Option Int → DXFErr
  /-- Open: ENTITIES section not found. -/
  | entitiesNotFound : DXFErr
  /-- Open: OBJECTS section not found. -/
  | objectsNotFound : DXFErr
  /-- Exporter: ENDSEC of OBJECTS section not found. -/
  | endsecObjectsNotFound : DXFErr
  /-- Linker: unexpected entity while collecting linked entities. -/
  | linkError : DXFErr
  /-- Out-of-range sequence access (host IndexError/KeyError). -/
  | indexError : DXFErr
  /-- Malformed text passed to the tag parser. -/
  | parseError : DXFErr
  /-- Missing sub-entity attribute (host AttributeError). -/
  | attribError : DXFErr
deriving DecidableEq, Repr

/-- `DXFErr.isMalformedTag e` holds for the tokenizer's malformed-tag errors. -/
def DXFErr.isMalformedTag : DXFErr → Bool
  | .invalidGroupCode _ => true
  | _ => false

/-- The fixed set of DXF type names supported by the entity factory. -/
def SUPPORTED_DXF_TYPES : List String :=
  ["ARC", "LINE", "CIRCLE", "ELLIPSE", "POINT", "LWPOLYLINE", "SPLINE", "3DFACE",
   "SOLID", "TRACE", "POLYLINE", "VERTEX", "SEQEND", "MESH", "TEXT", "MTEXT",
   "HATCH", "INSERT", "ATTRIB", "ATTDEF"]

instance {ε α : Type} [DecidableEq ε] [DecidableEq α] : DecidableEq (Except ε α) :=
  fun a b =>
    match a, b with
    | .error x, .error y =>
      match decEq x y with
      | .isTrue h => .isTrue (by rw [h])
      | .isFalse h => .isFalse (by intro hc; cases hc; exact h rfl)
    | .error _, .ok _ => .isFalse (by intro hc; cases hc)
    | .ok _, .error _ => .isFalse (by intro hc; cases hc)
    | .ok x, .ok y =>
      match decEq x y with
      | .isTrue h => .isTrue (by rw [h])
      | .isFalse h => .isFalse (by intro hc; cases hc; exact h rfl)

/-- A compiled tag: group code and decoded string value. -/
structure STag where
  code : Int
  value : String
deriving DecidableEq, Repr

/-- `binary_tagger` with a fixed encoding: reads two consecutive lines per
tag (an integer code line and a value line stripped of terminators) until
the input ends or a code line is malformed.  Reading past the end of input
returns an empty line, whose integer conversion fails; hence the produced
sequence always terminates with a structure error — the only silent
termination in the source is an I/O read error, which a plain byte stream
never raises.  Returns the tags produced before the stop, and the error. -/
def binary_tagger (enc : String) : List Line → List STag × DXFErr
  | [] => ([], .invalidGroupCode none)
  | [c] =>
    match parseIntBytes c with
    | none => ([], .invalidGroupCode none)
    | some code =>
      if code < 0 ∨ code > 1071 then ([], .invalidGroupCode (some code))
      else ([⟨code, ""⟩], .invalidGroupCode none)
  | c :: v :: rest =>
    match parseIntBytes c with
    | none => ([], .invalidGroupCode none)
    | some code =>
      if code < 0 ∨ code > 1071 then ([], .invalidGroupCode (some code))
      else
        let r := binary_tagger enc rest
        (⟨code, decodeBytes enc (rstripCRLF v)⟩ :: r.1, r.2)

/-- Modelled from the spec: the tag compiler performs secondary typing of
compiled tags (handles, pointers, coordinates kept uninterpreted at this
layer); group codes and string values pass through unchanged. -/
def tag_compiler (ts : List STag) : List STag := ts

/-- Modelled from the spec: a constructed logical-entity value as returned by
the external entity-construction collaborator — the record's core tags with
the non-drawing cross-references carried alongside (extended data,
application data, extension dictionary, reactors). -/
structure RawEnt where
  coreTags : List STag
  xdata : List STag
  appdata : List STag
  extensionDict : List STag
  reactors : List STag
deriving DecidableEq, Repr

/-- The record's DXF type name: value of its leading code-0 tag. -/
def RawEnt.dxftype (e : RawEnt) : String :=
  ((e.coreTags.find? (fun t => t.code = 0)).map (fun t => t.value)).getD ""

/-- The entity's paperspace flag (group code 67, default 0). -/
def RawEnt.paperspace (e : RawEnt) : Int :=
  (((e.coreTags.find? (fun t => t.code = 67)).map (fun t => t.value)).bind parseIntStr).getD 0

/-- The attribs-follow flag of an INSERT (group code 66, default absent). -/
def RawEnt.attribsFollow (e : RawEnt) : Bool :=
  ((((e.coreTags.find? (fun t => t.code = 66)).map (fun t => t.value)).bind parseIntStr).getD 0) ≠ 0

/-- Modelled from the spec: entity construction dispatches a compiled tag
group to a constructor for the named type; extended data (group codes ≥
1000) is separated from the core tags. -/
def factory_entity (ts : List STag) : RawEnt :=
  ⟨ts.filter (fun t => t.code < 1000), ts.filter (fun t => 1000 ≤ t.code), [], [], []⟩

/-- A logical entity: a primary record plus the dependent records it owns
and its terminator record, when any. -/
structure Entity where
  base : RawEnt
  linked : List RawEnt
  seqend : Option RawEnt
deriving DecidableEq, Repr

/-- Accumulation state of the linker: the primary being collected, its
dependents so far, the expected dependent type, and whether this primary is
also the currently queued (look-ahead) entity. -/
structure Acc where
  base : RawEnt
  deps : List RawEnt
  expected : String
  isQueued : Bool
deriving DecidableEq, Repr

/-- Joint state of the linker and the one-entity look-ahead queue shared by
both iteration modes. -/
structure LQState where
  acc : Option Acc := none
  queued : Option Entity := none
deriving DecidableEq, Repr

/-- Modelled from the spec: one step of the entity linker.  While
accumulating, a SEQEND terminates the composite, the expected dependent
type is attached, and anything else is a structure error; while idle, a
POLYLINE (and an INSERT whose attribs-follow flag is set) opens a new
accumulation.  Returns the new state, whether the record was consumed as a
linked entity, and whether it became the new accumulating primary. -/
def linkerStep (lq : LQState) (e : RawEnt) : Except DXFErr (LQState × Bool × Bool) :=
  match lq.acc with
  | some a =>
    if e.dxftype = "SEQEND" then
      let ent : Entity := ⟨a.base, a.deps, some e⟩
      .ok (⟨none, if a.isQueued then some ent else lq.queued⟩, true, false)
    else if e.dxftype = a.expected then
      .ok ({ lq with acc := some { a with deps := a.deps ++ [e] } }, true, false)
    else .error .linkError
  | none =>
    if e.dxftype = "POLYLINE" then
      .ok ({ lq with acc := some ⟨e, [], "VERTEX", false⟩ }, false, true)
    else if e.dxftype = "INSERT" ∧ e.attribsFollow then
      .ok ({ lq with acc := some ⟨e, [], "ATTRIB", false⟩ }, false, true)
    else .ok (lq, false, false)

/-- One record through the linker and the look-ahead queue, exactly as both
iteration loops do it: the linker always runs; a record it did not consume
and whose paperspace flag is 0 flushes the previously queued entity and
becomes the new queued entity. -/
def processRecord (lq : LQState) (e : RawEnt) : Except DXFErr (LQState × List Entity) := do
  let r ← linkerStep lq e
  let lq1 := r.1
  let linked := r.2.1
  let became := r.2.2
  if linked then .ok (lq1, [])
  else if e.paperspace = 0 then
    if became then
      .ok (⟨lq1.acc.map (fun a => { a with isQueued := true }), none⟩, lq1.queued.toList)
    else
      .ok ({ lq1 with queued := some ⟨e, [], none⟩ }, lq1.queued.toList)
  else .ok (lq1, [])

/-- The entity still held in the look-ahead queue when iteration ends: the
queued entity, which whilst still accumulating carries the dependents
collected so far. -/
def finalFlush (lq : LQState) : List Entity :=
  match lq.acc with
  | some a => if a.isQueued then [⟨a.base, a.deps, none⟩] else lq.queued.toList
  | none => lq.queued.toList

/-- Header-scan state: resolved encoding and version, with the documented
legacy defaults, and which header variable's value is awaited next. -/
structure HdrState where
  encoding : String := "cp1252"
  version : String := "AC1009"
  fetch : Nat := 0
deriving DecidableEq, Repr

/-- One header-scan step on a raw tag, translated from the source's chain:
the codepage and version variable names arm the fetch state; an armed state
consumes the next tag's value (decoded, the codepage via the
encoding-resolution collaborator). -/
def hdrStep (st : HdrState) (code : Int) (v : List Byte) : HdrState :=
  if code = 9 ∧ v = bsOf "$DWGCODEPAGE" then { st with fetch := 1 }
  else if code = 9 ∧ v = bsOf "$ACADVERSION" then { st with fetch := 2 }
  else if st.fetch ≠ 0 then
    if st.fetch = 1 then { st with encoding := toencoding (decodeBytes "utf-8" v), fetch := 0 }
    else { st with version := decodeBytes "utf-8" v, fetch := 0 }
  else st

/-- Phase 1 of the single-pass iterator: scan raw tags until the first
`(0, ENDSEC)` — the end of the HEADER section — resolving encoding and
version on the way.  Tokenizer errors (including reading past the end of
input) propagate. -/
def phase1 (st : HdrState) : List Line → Except DXFErr (HdrState × List Line)
  | [] => .error (.invalidGroupCode none)
  | [c] =>
    match parseIntBytes c with
    | none => .error (.invalidGroupCode none)
    | some code =>
      if code < 0 ∨ code > 1071 then .error (.invalidGroupCode (some code))
      else phase1 (hdrStep st code []) []
  | c :: v :: rest =>
    match parseIntBytes c with
    | none => .error (.invalidGroupCode none)
    | some code =>
      if code < 0 ∨ code > 1071 then .error (.invalidGroupCode (some code))
      else
        let val := rstripCRLF v
        if code = 0 ∧ val = bsOf "ENDSEC" then .ok (st, rest)
        else phase1 (hdrStep st code val) rest

/-- How the single-pass iteration ended: at the ENTITIES end marker, by a
propagated error, or by clean tokenizer exhaustion (reachable only through
an I/O read error in the tokenizer). -/
inductive SPExit where
  | endsec : SPExit
  | errExit : DXFErr → SPExit
  | exhausted : SPExit
deriving DecidableEq, Repr

/-- Loop state of the single-pass iterator's phase 2, one field per local
of the source loop.  `encoding` mirrors the loop's rebindable local; the
tags consumed by the loop were already produced by a tokenizer created
with the phase-1 encoding, so later rebinding cannot affect them. -/
structure SPState where
  prevCode : Int := -1
  prevValue : String := ""
  structRec : String := ""
  tagAcc : List STag := []
  entities : Bool := false
  encoding : String
  version : String
  lq : LQState := {}
deriving DecidableEq, Repr

/-- Phase 2 of the single-pass iterator, translated tag-by-tag from the
source loop.  Inside ENTITIES: an ENDSEC yields the queued entity and
returns (the record still being accumulated is discarded); a code-0 tag
first builds and links the pending record when its type is supported, then
starts the next record; other tags accumulate.  Outside: track the
SECTION/name pattern, switching `entities` on and rebinding the (already
ineffective) encoding local.  The second argument is the error with which
the tokenizer's tag sequence ends; it surfaces when the loop exhausts the
tags. -/
def spLoop (st : SPState) : List STag → DXFErr → List Entity × SPExit
  | [], te => ([], .errExit te)
  | t :: rest, te =>
    if st.entities then
      if t.code = 0 ∧ t.value = "ENDSEC" then (finalFlush st.lq, .endsec)
      else if t.code = 0 then
        if st.tagAcc ≠ [] ∧ st.structRec ∈ SUPPORTED_DXF_TYPES then
          match processRecord st.lq (factory_entity st.tagAcc) with
          | .error e => ([], .errExit e)
          | .ok pr =>
            (pr.2 ++ (spLoop { st with lq := pr.1, structRec := t.value, tagAcc := [t] } rest te).1,
             (spLoop { st with lq := pr.1, structRec := t.value, tagAcc := [t] } rest te).2)
        else spLoop { st with structRec := t.value, tagAcc := [t] } rest te
      else spLoop { st with tagAcc := st.tagAcc ++ [t] } rest te
    else
      if t.code = 0 then
        spLoop { st with structRec := t.value, prevCode := t.code, prevValue := t.value } rest te
      else if t.code = 2 ∧ st.prevCode = 0 ∧ st.prevValue = "SECTION" then
        let ent := t.value = "ENTITIES"
        let enc2 := if ent ∧ verGT st.version "AC1009" then "utf-8" else st.encoding
        spLoop { st with entities := ent, encoding := enc2,
                         prevCode := t.code, prevValue := t.value } rest te
      else spLoop { st with prevCode := t.code, prevValue := t.value } rest te

/-- Result of a run of the single-pass iterator: the entities yielded, the
way iteration ended, and whether the source stream was closed. -/
structure SPFull where
  entities : List Entity
  exit : SPExit
  closed : Bool
deriving DecidableEq, Repr

/-- `single_pass_modelspace`: phase 1 resolves encoding and version (errors
before any entity is yielded); phase 2 tokenizes the remaining stream with
the resolved encoding and runs the entity loop.  The source's
`stream.close()` sits after the loop, so it runs only when the tokenizer
terminates cleanly — every other exit leaves the stream open. -/
def single_pass_modelspace (lines : List Line) : SPFull :=
  match phase1 {} lines with
  | .error e => ⟨[], .errExit e, false⟩
  | .ok (hst, rest) =>
    let tr := binary_tagger hst.encoding rest
    let st0 : SPState := { encoding := hst.encoding, version := hst.version }
    let r := spLoop st0 (tag_compiler tr.1) tr.2
    ⟨r.1, r.2, match r.2 with | .exhausted => true | _ => false⟩

/-- Byte offset of the start of line `k` in the stream. -/
def location (lines : List Line) (k : Nat) : Nat :=
  ((lines.take k).map List.length).sum

/-- The whole byte content of the stream. -/
def fileBytes (lines : List Line) : List Byte := lines.join

/-- Seek to `off` and read `count` bytes. -/
def readBytes (data : List Byte) (off count : Nat) : List Byte :=
  (data.drop off).take count

/-- An entry of the file-structure index: group code, decoded value and
byte offset of the record start. -/
structure IndexEntry where
  code : Int
  value : String
  loc : Nat
deriving DecidableEq, Repr

/-- The file structure produced by the indexer: detected version, detected
encoding, and the ordered index entries. -/
structure FileStructure where
  version : String
  encoding : String
  index : List IndexEntry
deriving DecidableEq, Repr

/-- Scan state of the index builder: header-variable resolution plus
whether the previous indexed record was a SECTION marker. -/
structure FIState where
  hdr : HdrState := {}
  prevWasSection : Bool := false
deriving DecidableEq, Repr

/-- One scan step of the index builder on the code line `c` and raw value
`v`: parse and range-check the code, then append at most one index entry
at byte offset `off` — every code-0 tag, and a code-2 tag immediately
following a SECTION marker; all other codes are dropped.  Header-variable
resolution runs on every tag. -/
def fiStep (off : Nat) (st : FIState) (c : Line) (v : List Byte) :
    Except DXFErr (List IndexEntry × FIState) :=
  match parseIntBytes c with
  | none => .error (.invalidGroupCode none)
  | some code =>
    if code < 0 ∨ code > 1071 then .error (.invalidGroupCode (some code))
    else if code = 0 then
      .ok ([⟨0, decodeBytes st.hdr.encoding v, off⟩],
           ⟨hdrStep st.hdr code v, v = bsOf "SECTION"⟩)
    else if code = 2 ∧ st.prevWasSection then
      .ok ([⟨2, decodeBytes st.hdr.encoding v, off⟩], ⟨hdrStep st.hdr code v, false⟩)
    else .ok ([], ⟨hdrStep st.hdr code v, false⟩)

/-- Modelled from the spec: the file-structure index builder
(`fileindex.load`, not under src/).  A single forward pass over the raw
tag stream tracking the byte offset of every line pair: every code-0 tag
becomes an index entry; a code-2 tag immediately following a SECTION
marker becomes an entry too (consumed later into the section map); every
other code is dropped.  Version and encoding are resolved from the
header's version/codepage variables during the same pass, values decoded
with the provisional encoding until the codepage is known.  A malformed or
out-of-range code line aborts the scan with a structure error; end of
input ends it cleanly. -/
def fiGo (off : Nat) (st : FIState) : List Line → Except DXFErr (List IndexEntry × HdrState)
  | [] => .ok ([], st.hdr)
  | [c] =>
    match fiStep off st c (rstripCRLF []) with
    | .error e => .error e
    | .ok r => .ok (r.1, r.2.hdr)
  | c :: v :: rest =>
    match fiStep off st c (rstripCRLF v) with
    | .error e => .error e
    | .ok r =>
      match fiGo (off + c.length + v.length) r.2 rest with
      | .error e => .error e
      | .ok r2 => .ok (r.1 ++ r2.1, r2.2)

/-- Modelled from the spec: `fileindex.load` over a byte stream. -/
def fileindex_load (lines : List Line) : Except DXFErr FileStructure := do
  let r ← fiGo 0 {} lines
  .ok ⟨r.2.version, r.2.encoding, r.1⟩

/-- Insert into the section position map; a later binding for the same name
shadows an earlier one, as with the source's dict assignment. -/
def dictSet (m : List (String × Int)) (k : String) (v : Int) : List (String × Int) :=
  (k, v) :: m

/-- One entry of `IterDXF._load_index`'s loop: keep code-0 entries,
consume a code-2 entry into the section map pointing at the position of
the last code-0 entry kept so far, drop everything else. -/
def liStep (acc : List IndexEntry × List (String × Int)) (e : IndexEntry) :
    List IndexEntry × List (String × Int) :=
  if e.code = 0 then (acc.1 ++ [e], acc.2)
  else if e.code = 2 then (acc.1, dictSet acc.2 e.value ((acc.1.length : Int) - 1))
  else acc

/-- `IterDXF._load_index`: filter the index down to code-0 entries,
consuming each code-2 entry into the section map pointing at the position
of the SECTION entry itself (the last code-0 entry kept so far); all other
codes (handles) are removed. -/
def load_index_filter (fs : FileStructure) : FileStructure × List (String × Int) :=
  let r := fs.index.foldl liStep ([], [])
  ({ fs with index := r.1 }, r.2)

/-- The state held by an open `IterDXF` reader: the filtered file
structure, the section position map, and the source content. -/
structure IterState where
  structure_ : FileStructure
  sections : List (String × Int)
  lines : List Line
deriving DecidableEq, Repr

/-- `IterDXF.__init__`: build the index and the section map, then reject
the source if ENTITIES is absent, or if the version is newer than the
legacy baseline and OBJECTS is absent. -/
def IterDXF_open (lines : List Line) : Except DXFErr IterState :=
  match fileindex_load lines with
  | .error e => .error e
  | .ok fs =>
    if (((load_index_filter fs).2).lookup "ENTITIES").isNone then .error .entitiesNotFound
    else if verGT (load_index_filter fs).1.version "AC1009" ∧
        (((load_index_filter fs).2).lookup "OBJECTS").isNone then
      .error .objectsNotFound
    else .ok ⟨(load_index_filter fs).1, (load_index_filter fs).2, lines⟩

/-- Sequence access with the host language's integer-index semantics
(negative indexes count from the end; out of range is an error). -/
def pyIdx {α : Type} (l : List α) (i : Int) : Option α :=
  if 0 ≤ i then l.get? i.toNat
  else if (-i).toNat ≤ l.length then l.get? (l.length - (-i).toNat)
  else none

/-- `IterDXF.load_entities.to_str`: decode a byte span with the source's
encoding and normalize CR/LF to LF. -/
def replaceCRLF : List Char → List Char
  | [] => []
  | '\r' :: '\n' :: rest => '\n' :: replaceCRLF rest
  | ch :: rest => ch :: replaceCRLF rest

/-- Decode a record's byte span to text. -/
def to_str (enc : String) (data : List Byte) : String :=
  String.mk (replaceCRLF (decodeBytes enc data).data)

/-- Split decoded record text into lines, dropping the trailing empty piece
after the final newline. -/
def textLines (s : String) : List String :=
  let parts := (s.data.splitOn '\n').map String.mk
  match parts.getLast? with
  | some "" => parts.dropLast
  | _ => parts

/-- Modelled from the spec: the text-mode tag parser behind
`ExtendedTags.from_text` — consecutive line pairs become compiled tags;
a malformed code line is a structure error. -/
def parseTextTags : List String → Except DXFErr (List STag)
  | [] => .ok []
  | [_] => .error .parseError
  | c :: v :: rest =>
    match parseIntStr c with
    | none => .error .parseError
    | some code => do
      let ts ← parseTextTags rest
      .ok (⟨code, v⟩ :: ts)

/-- `IterDXF.load_entities` walk: starting at index position `idx`, read
each record's byte span (from its entry's offset to the next entry's), and
for entries whose value is a supported type, parse the decoded span and
construct the entity; stop at the first ENDSEC entry.  Running off the end
of the index is the host's IndexError. -/
def load_entities_go (st : IterState) (idx : Int) : Nat → Except DXFErr (List RawEnt)
  | 0 => .error .indexError
  | fuel + 1 =>
    match pyIdx st.structure_.index idx with
    | none => .error .indexError
    | some entry =>
      if entry.value = "ENDSEC" then .ok []
      else
        match pyIdx st.structure_.index (idx + 1) with
        | none => .error .indexError
        | some nxt =>
          if entry.value ∈ SUPPORTED_DXF_TYPES then
            match parseTextTags (textLines (to_str st.structure_.encoding
                (readBytes (fileBytes st.lines) entry.loc (nxt.loc - entry.loc)))) with
            | .error e => .error e
            | .ok ts =>
              match load_entities_go st (idx + 1) fuel with
              | .error e => .error e
              | .ok r => .ok (factory_entity ts :: r)
          else load_entities_go st (idx + 1) fuel

/-- `IterDXF.load_entities` with the fuel fixed to the index length. -/
def load_entities (st : IterState) (idx : Int) : Except DXFErr (List RawEnt) :=
  load_entities_go st idx (st.structure_.index.length + 1)

/-- The record stream the index walk visits, before any filtering or
parsing: each visited entry's value together with its raw byte span. -/
def records_of_go (st : IterState) (idx : Int) :
    Nat → Except DXFErr (List (String × List Byte))
  | 0 => .error .indexError
  | fuel + 1 =>
    match pyIdx st.structure_.index idx with
    | none => .error .indexError
    | some entry =>
      if entry.value = "ENDSEC" then .ok []
      else
        match pyIdx st.structure_.index (idx + 1) with
        | none => .error .indexError
        | some nxt =>
          match records_of_go st (idx + 1) fuel with
          | .error e => .error e
          | .ok r =>
            .ok ((entry.value,
                  readBytes (fileBytes st.lines) entry.loc (nxt.loc - entry.loc)) :: r)

/-- The raw record stream of the ENTITIES walk. -/
def records_of (st : IterState) (idx : Int) : Except DXFErr (List (String × List Byte)) :=
  records_of_go st idx (st.structure_.index.length + 1)

/-- Build entities from a raw record stream: supported records are parsed
and constructed, unsupported ones are skipped without being compiled. -/
def yieldRecords (enc : String) : List (String × List Byte) → Except DXFErr (List RawEnt)
  | [] => .ok []
  | (v, data) :: rest =>
    if v ∈ SUPPORTED_DXF_TYPES then
      match parseTextTags (textLines (to_str enc data)) with
      | .error e => .error e
      | .ok ts =>
        match yieldRecords enc rest with
        | .error e => .error e
        | .ok r => .ok (factory_entity ts :: r)
    else yieldRecords enc rest

/-- Fold the linker and look-ahead queue over a stream of constructed
entities, flushing the queue at the end — the body of
`IterDXF.modelspace`. -/
def linkFold (lq : LQState) : List RawEnt → Except DXFErr (List Entity)
  | [] => .ok (finalFlush lq)
  | e :: rest => do
    let p ← processRecord lq e
    let r ← linkFold p.1 rest
    .ok (p.2 ++ r)

/-- `IterDXF.modelspace`: stream the entities of the ENTITIES section
through the linker and the one-entity look-ahead queue. -/
def modelspace (st : IterState) : Except DXFErr (List Entity) :=
  match st.sections.lookup "ENTITIES" with
  | none => .error .indexError
  | some si => do
    let ents ← load_entities st (si + 1)
    linkFold {} ents

/-- Entities obtained from a source through `opendxf`: none when opening
fails. -/
def opendxf_entities (lines : List Line) : List Entity :=
  match IterDXF_open lines with
  | .error _ => []
  | .ok st =>
    match modelspace st with
    | .error _ => []
    | .ok l => l

/-- Modelled from the spec: `FileStructure.get` — the position of the first
index entry at or after `start` with the given code and value, if any. -/
def fs_get (fs : FileStructure) (code : Int) (value : String) (start : Int) : Option Int :=
  ((List.range fs.index.length).find? fun j =>
      decide (start ≤ Int.ofNat j) &&
        match fs.index.get? j with
        | some e => decide (e.code = code ∧ e.value = value)
        | none => false).map Int.ofNat

/-- `IterDXF.copy_objects_section`: locate the ENDSEC of the OBJECTS
section (a missing end marker surfaces here as a structure error), then
read the byte range from the section's SECTION record start to the start
of the record after its ENDSEC. -/
def copy_objects_section (st : IterState) : Except DXFErr (List Byte) :=
  match st.sections.lookup "OBJECTS" with
  | none => .error .indexError
  | some si =>
    match fs_get st.structure_ 0 "ENDSEC" si with
    | none => .error .endsecObjectsNotFound
    | some ei =>
      match pyIdx st.structure_.index si, pyIdx st.structure_.index (ei + 1) with
      | some s, some e => .ok (readBytes (fileBytes st.lines) s.loc (e.loc - s.loc))
      | _, _ => .error .indexError

/-- `IterDXF.export`: the bytes copied verbatim to the new destination —
from the start of the source through the offset of the first record after
the ENTITIES section header. -/
def IterDXF_export (st : IterState) : Except DXFErr (List Byte) :=
  match st.sections.lookup "ENTITIES" with
  | none => .error .indexError
  | some si =>
    match pyIdx st.structure_.index (si + 1) with
    | none => .error .indexError
    | some entry => .ok (readBytes (fileBytes st.lines) 0 entry.loc)

/-- The ENTITIES-section end marker written by the export writer. -/
def endsecMark : List Byte := bsOf "  0\r\nENDSEC\r\n"

/-- The end-of-file marker written by the export writer. -/
def eofMark : List Byte := bsOf "  0\r\nEOF\r\n"

/-- `IterDXFWriter.close`: the bytes appended on closing, paired with the
error, if any, at which closing aborted (the marker already written
stays written).  Writes the ENTITIES end marker; for versions newer than
the legacy baseline copies the OBJECTS section from the source (the lazy
point at which a missing OBJECTS end marker surfaces); then the
end-of-file marker. -/
def writer_close (st : IterState) : List Byte × Option DXFErr :=
  if verGT st.structure_.version "AC1009" then
    match copy_objects_section st with
    | .error e => (endsecMark, some e)
    | .ok obj => (endsecMark ++ obj ++ eofMark, none)
  else (endsecMark ++ eofMark, none)

/-- Strip the primary entity's non-drawing cross-references, as
`IterDXFWriter.write` does before serialization. -/
def strip_entity (e : Entity) : Entity :=
  { e with base := { e.base with xdata := [], appdata := [], extensionDict := [], reactors := [] } }

/-- Modelled from the spec: the external per-entity DXF serialization
(`export_dxf`) emits the record's core tags followed by its carried
cross-reference tag groups. -/
def exportTags (r : RawEnt) : List STag :=
  r.coreTags ++ r.appdata ++ r.extensionDict ++ r.reactors ++ r.xdata

/-- A group code rendered right-aligned to width 3, as the tag writer
formats it. -/
def pad3 (c : Int) : String :=
  let s := toString c
  if s.length < 3 then String.mk (List.replicate (3 - s.length) ' ') ++ s else s

/-- One serialized tag: code line and value line. -/
def renderTag (enc : String) (t : STag) : List Byte :=
  encodeStr enc (pad3 t.code ++ "\n" ++ t.value ++ "\n")

/-- Serialize a tag sequence to destination bytes. -/
def renderTags (enc : String) (ts : List STag) : List Byte :=
  (ts.map (renderTag enc)).join

/-- `IterDXFWriter.write`: strip the primary's cross-references, serialize
it, then for a POLYLINE its vertices and its terminator, and for an INSERT
whose attribs-follow flag is set its attributes and its terminator; encode
with the source's encoding.  A missing terminator sub-entity where one is
required is the host's attribute error. -/
def writer_write (enc : String) (e : Entity) : Except DXFErr (List Byte) :=
  let s := strip_entity e
  let prim := exportTags s.base
  if s.base.dxftype = "POLYLINE" then
    match s.seqend with
    | none => .error .attribError
    | some sq => .ok (renderTags enc (prim ++ (s.linked.map exportTags).join ++ exportTags sq))
  else if s.base.dxftype = "INSERT" ∧ s.base.attribsFollow then
    match s.seqend with
    | none => .error .attribError
    | some sq => .ok (renderTags enc (prim ++ (s.linked.map exportTags).join ++ exportTags sq))
  else .ok (renderTags enc prim)

/-- The claim's description of `IterDXFWriter.write`, following its words:
primary record, then owned dependents in original order, then the
terminator whenever the entity is of a dependent-capable type (polyline or
insert family). -/
def claim_write (enc : String) (e : Entity) : Except DXFErr (List Byte) :=
  let s := strip_entity e
  if s.base.dxftype = "POLYLINE" ∨ s.base.dxftype = "INSERT" then
    match s.seqend with
    | none => .error .attribError
    | some sq =>
      .ok (renderTags enc (exportTags s.base ++ (s.linked.map exportTags).join ++ exportTags sq))
  else .ok (renderTags enc (exportTags s.base))

/-- The amended description of `IterDXFWriter.write`: the terminator is
written for a POLYLINE, and for an INSERT only when its attribs-follow
flag is set. -/
def amended_write (enc : String) (e : Entity) : Except DXFErr (List Byte) :=
  let s := strip_entity e
  if s.base.dxftype = "POLYLINE" ∨ (s.base.dxftype = "INSERT" ∧ s.base.attribsFollow) then
    match s.seqend with
    | none => .error .attribError
    | some sq =>
      .ok (renderTags enc (exportTags s.base ++ (s.linked.map exportTags).join ++ exportTags sq))
  else .ok (renderTags enc (exportTags s.base))

/-! ### Concrete sources used to evaluate the model -/

/-- Render one tag as its two CR/LF-terminated wire lines. -/
def tagLines (c : Int) (v : String) : List Line :=
  [bsOf (toString c ++ "\r\n"), bsOf (v ++ "\r\n")]

/-- Render a tag list as a wire byte stream. -/
def mkLines (ts : List (Int × String)) : List Line :=
  (ts.map (fun p => tagLines p.1 p.2)).join

/-- A well-formed two-entity source: HEADER section, then ENTITIES with a
LINE and a CIRCLE. -/
def twoEntSrc : List Line :=
  mkLines [(0, "SECTION"), (2, "HEADER"), (0, "ENDSEC"),
           (0, "SECTION"), (2, "ENTITIES"),
           (0, "LINE"), (8, "0"), (0, "CIRCLE"), (8, "0"),
           (0, "ENDSEC"), (0, "EOF")]

/-- The same well-formed two-entity source, bound separately for the
resource-release analysis. -/
def closeSrc : List Line :=
  mkLines [(0, "SECTION"), (2, "HEADER"), (0, "ENDSEC"),
           (0, "SECTION"), (2, "ENTITIES"),
           (0, "LINE"), (8, "0"), (0, "CIRCLE"), (8, "0"),
           (0, "ENDSEC"), (0, "EOF")]

/-- A modern-version source declaring codepage ANSI_1251 and version
AC1015, whose ENTITIES section holds a TEXT entity with the non-ASCII
byte 0xC0 in its text value, followed by a LINE. -/
def cpSrc : List Line :=
  mkLines [(0, "SECTION"), (2, "HEADER"),
           (9, "$DWGCODEPAGE"), (3, "ANSI_1251"),
           (9, "$ACADVERSION"), (1, "AC1015"),
           (0, "ENDSEC"),
           (0, "SECTION"), (2, "ENTITIES"), (0, "TEXT")]
  ++ [bsOf "  1\r\n", [192, 13, 10]]
  ++ mkLines [(0, "LINE"), (8, "0"), (0, "ENDSEC"), (0, "EOF")]

/-- A source whose header declares neither codepage nor version. -/
def defaultsSrc : List Line :=
  mkLines [(0, "SECTION"), (2, "HEADER"), (0, "ENDSEC"),
           (0, "SECTION"), (2, "ENTITIES"), (0, "ENDSEC"), (0, "EOF")]

/-- A SEQEND terminator record entity. -/
def seqendEnt : RawEnt := factory_entity [⟨0, "SEQEND"⟩]

/-- An INSERT entity without the attribs-follow flag, carrying a
terminator sub-record. -/
def insNoAttribs : Entity := ⟨factory_entity [⟨0, "INSERT"⟩, ⟨2, "BLK"⟩], [], some seqendEnt⟩

/-! ### C1 — two-mode equivalence -/

/-- C1: the claimed element-wise equality of the Indexed Iterator's and the
Single-Pass Iterator's entity sequences fails on the code: on a well-formed
two-entity source the indexed mode yields LINE and CIRCLE, while the
single-pass mode yields only LINE — its loop discards the record still
being accumulated when the ENTITIES end marker arrives, dropping the final
entity of the section. -/
theorem c1_two_mode_divergence :
    (opendxf_entities twoEntSrc).map (fun e => e.base.dxftype) = ["LINE", "CIRCLE"] ∧
    ((single_pass_modelspace twoEntSrc).entities).map (fun e => e.base.dxftype) = ["LINE"] ∧
    opendxf_entities twoEntSrc ≠ (single_pass_modelspace twoEntSrc).entities := by
  decide

/-! ### C2 — header resolution and the ineffective modern-encoding switch -/

/-- C2: the header scan resolves encoding and version as claimed (with the
legacy defaults when the variables are absent), but the claimed switch to
the modern default encoding for entity text never happens: on a source
resolved to version AC1015 (newer than AC1009) and codepage cp1251, the
TEXT entity's text is decoded with cp1251, not UTF-8 — the loop's encoding
rebinding cannot reach the tokenizer that was already created with the
header codepage. -/
theorem c2_encoding_bug :
    ((phase1 {} cpSrc).toOption.map (fun p => (p.1.encoding, p.1.version)))
      = some ("cp1251", "AC1015") ∧
    verGT "AC1015" "AC1009" = true ∧
    ((phase1 {} defaultsSrc).toOption.map (fun p => (p.1.encoding, p.1.version)))
      = some ("cp1252", "AC1009") ∧
    (single_pass_modelspace cpSrc).entities.map (fun e => e.base.coreTags)
      = [[⟨0, "TEXT"⟩, ⟨1, decodeBytes "cp1251" [192]⟩]] ∧
    decodeBytes "cp1251" [192] ≠ decodeBytes "utf-8" [192] := by
  decide

/-! ### C4 — per-entity export serialization -/

/-- C4 counterexample: the claim writes the terminator for every entity of
a dependent-capable type, but for an INSERT whose attribs-follow flag is
unset the code writes no terminator: the two disagree at `insNoAttribs`. -/
theorem c4_counterexample :
    writer_write "cp1252" insNoAttribs ≠ claim_write "cp1252" insNoAttribs := by
  decide

/-- C4 amended: the bytes appended by `IterDXFWriter.write` are the
serialization of the stripped primary record, followed by its owned
dependents in original order and its terminator for a POLYLINE, or for an
INSERT whose attribs-follow flag is set; otherwise the stripped primary
alone. -/
theorem c4_write_amended (enc : String) (e : Entity) :
    writer_write enc e = amended_write enc e := by
  unfold writer_write amended_write
  by_cases h1 : (strip_entity e).base.dxftype = "POLYLINE" <;>
    by_cases h2 : (strip_entity e).base.dxftype = "INSERT" ∧ (strip_entity e).base.attribsFollow <;>
      simp [h1, h2]

/-! ### C9 — resource release on exit paths -/

/-- The single-pass entity loop never terminates through clean tokenizer
exhaustion: the tag sequence of a byte stream always ends with the
tokenizer's structure error. -/
theorem spLoop_never_exhausted (ts : List STag) :
    ∀ (st : SPState) (te : DXFErr), (spLoop st ts te).2 ≠ SPExit.exhausted := by
  induction ts with
  | nil => intro st te; simp [spLoop]
  | cons t rest ih =>
    intro st te
    unfold spLoop
    by_cases he : st.entities = true <;> simp [he]
    · by_cases h1 : t.code = 0 ∧ t.value = "ENDSEC" <;> simp [h1]
      by_cases h2 : t.code = 0 <;> simp [h2]
      · by_cases h3 : st.tagAcc ≠ [] ∧ st.structRec ∈ SUPPORTED_DXF_TYPES <;> simp [h3]
        · match hp : processRecord st.lq (factory_entity st.tagAcc) with
          | .error e => simp
          | .ok p => simp; apply ih
        · apply ih
      · apply ih
    · by_cases h1 : t.code = 0 <;> simp [h1]
      · apply ih
      · by_cases h2 : t.code = 2 ∧ st.prevCode = 0 ∧ st.prevValue = "SECTION" <;> simp [h2] <;>
          apply ih

/-- C9 counterexample: on a well-formed source the single-pass iteration
terminates at the ENTITIES end marker with the stream left open,
contradicting the claim that the stream is closed whenever iteration
terminates. -/
theorem c9_counterexample :
    ¬((single_pass_modelspace closeSrc).exit = SPExit.endsec →
      (single_pass_modelspace closeSrc).closed = true) := by
  decide

/-- C9 amended: `single_pass_modelspace` never closes its stream — the
closing call sits after the loop and is reachable only through clean
tokenizer exhaustion, which a plain byte stream (ending in a structure
error, not an I/O error) never triggers; termination at the ENTITIES end
marker or through a propagated error leaves the stream open. -/
theorem c9_stream_never_closed (lines : List Line) :
    (single_pass_modelspace lines).closed = false := by
  unfold single_pass_modelspace
  match hp : phase1 {} lines with
  | .error e => simp
  | .ok p =>
    simp only []
    have h := spLoop_never_exhausted
      (tag_compiler (binary_tagger p.1.encoding p.2).1)
      { encoding := p.1.encoding, version := p.1.version }
      (binary_tagger p.1.encoding p.2).2
    revert h
    match (spLoop { encoding := p.1.encoding, version := p.1.version }
        (tag_compiler (binary_tagger p.1.encoding p.2).1)
        (binary_tagger p.1.encoding p.2).2) with
    | (es, SPExit.endsec) => intro _; rfl
    | (es, SPExit.errExit e) => intro _; rfl
    | (es, SPExit.exhausted) => intro h; exact absurd rfl h

/-! ### C8, C10 — tokenizer error behavior -/

/-- Interleave code/value line pairs into a wire stream. -/
def pairsJoin : List (Line × Line) → List Line
  | [] => []
  | p :: ps => p.1 :: p.2 :: pairsJoin ps

/-- A code line that parses to an in-range group code. -/
def wfCodeLineB (l : Line) : Bool :=
  match parseIntBytes l with
  | some c => decide (0 ≤ c ∧ c ≤ 1071)
  | none => false

/-- A code line on which the tokenizer must fail: unparseable or out of
range. -/
def badCodeLineB (l : Line) : Bool :=
  match parseIntBytes l with
  | some c => decide (c < 0 ∨ c > 1071)
  | none => true

/-- The tag the tokenizer produces from one well-formed line pair. -/
def mkTag (enc : String) (p : Line × Line) : STag :=
  ⟨(parseIntBytes p.1).getD 0, decodeBytes enc (rstripCRLF p.2)⟩

/-- The error the tokenizer raises on a bad code line. -/
def badErr (l : Line) : DXFErr :=
  match parseIntBytes l with
  | some c => .invalidGroupCode (some c)
  | none => .invalidGroupCode none

/-- Case analysis on a line stream in steps of two, matching the
tokenizer's recursion. -/
theorem twoStepInduction {motive : List Line → Prop} (h0 : motive [])
    (h1 : ∀ c, motive [c]) (h2 : ∀ c v rest, motive rest → motive (c :: v :: rest)) :
    ∀ ls, motive ls
  | [] => h0
  | [c] => h1 c
  | c :: v :: rest => h2 c v rest (twoStepInduction h0 h1 h2 rest)

/-- The tokenizer's tag sequence always ends with a malformed-tag
structure error on a plain byte stream: clean termination would require an
I/O read error, and reading past the end of input yields an empty line
whose integer conversion fails. -/
theorem bt_always_malformed (enc : String) :
    ∀ ls : List Line, ((binary_tagger enc ls).2).isMalformedTag = true := by
  intro ls
  induction ls using twoStepInduction with
  | h0 => rfl
  | h1 c =>
    simp only [binary_tagger]
    match parseIntBytes c with
    | none => rfl
    | some code =>
      by_cases h : code < 0 ∨ code > 1071 <;> simp [h, DXFErr.isMalformedTag]
  | h2 c v rest ih =>
    simp only [binary_tagger]
    match parseIntBytes c with
    | none => rfl
    | some code =>
      by_cases h : code < 0 ∨ code > 1071 <;> simp [h, DXFErr.isMalformedTag]
      exact ih

/-- The tokenizer consumes well-formed line pairs into their tags. -/
theorem bt_wf_pairs (enc : String) (pairs : List (Line × Line)) (rest : List Line)
    (hwf : ∀ p ∈ pairs, wfCodeLineB p.1 = true) :
    binary_tagger enc (pairsJoin pairs ++ rest) =
      (pairs.map (mkTag enc) ++ (binary_tagger enc rest).1, (binary_tagger enc rest).2) := by
  induction pairs with
  | nil => simp [pairsJoin]
  | cons p ps ih =>
    have hp := hwf p (by simp)
    have hps : ∀ q ∈ ps, wfCodeLineB q.1 = true := fun q hq => hwf q (by simp [hq])
    simp only [pairsJoin, List.cons_append, binary_tagger]
    match hc : parseIntBytes p.1 with
    | none => rw [wfCodeLineB, hc] at hp; cases hp
    | some code =>
      rw [wfCodeLineB, hc] at hp
      have hb : ¬(code < 0 ∨ code > 1071) := by
        have := of_decide_eq_true hp; omega
      simp only [if_neg hb, List.append_eq]
      rw [ih hps]
      simp [mkTag, hc]

/-- C10: the tokenizer never terminates normally at plain end of input — a
stream consisting of well-formed line pairs is consumed into exactly their
tags and then ends with the structure error of the failed integer
conversion of the empty line read past the end; moreover on every stream
whatsoever the produced sequence ends with a malformed-tag structure
error, clean termination being reserved to an I/O read error. -/
theorem c10_eof_is_error (enc : String) (pairs : List (Line × Line))
    (hwf : ∀ p ∈ pairs, wfCodeLineB p.1 = true) :
    binary_tagger enc (pairsJoin pairs) =
      (pairs.map (mkTag enc), .invalidGroupCode none) ∧
    ∀ ls : List Line, ((binary_tagger enc ls).2).isMalformedTag = true := by
  constructor
  · have h := bt_wf_pairs enc pairs [] hwf
    simpa [binary_tagger] using h
  · exact bt_always_malformed enc

/-- C10 witness: a concrete well-formed two-record stream ends in the
invalid-group-code error, not in normal termination. -/
theorem c10_eof_is_error_witness :
    binary_tagger "cp1252" (pairsJoin [(bsOf "  0\r\n", bsOf "SECTION\r\n"),
                                       (bsOf "  2\r\n", bsOf "HEADER\r\n")]) =
      ([⟨0, "SECTION"⟩, ⟨2, "HEADER"⟩], .invalidGroupCode none) := by
  have h := c10_eof_is_error "cp1252"
    [(bsOf "  0\r\n", bsOf "SECTION\r\n"), (bsOf "  2\r\n", bsOf "HEADER\r\n")]
    (by decide)
  calc binary_tagger "cp1252" (pairsJoin [(bsOf "  0\r\n", bsOf "SECTION\r\n"),
                                          (bsOf "  2\r\n", bsOf "HEADER\r\n")])
      = ([(bsOf "  0\r\n", bsOf "SECTION\r\n"), (bsOf "  2\r\n", bsOf "HEADER\r\n")].map
          (mkTag "cp1252"), .invalidGroupCode none) := h.1
    _ = ([⟨0, "SECTION"⟩, ⟨2, "HEADER"⟩], .invalidGroupCode none) := by decide

/-- The tokenizer stops hard at a bad code line. -/
theorem bt_bad_start (enc : String) (bad : Line) (rest : List Line)
    (hbad : badCodeLineB bad = true) :
    binary_tagger enc (bad :: rest) = ([], badErr bad) := by
  match rest with
  | [] =>
    simp only [binary_tagger]
    match hc : parseIntBytes bad with
    | none => simp [badErr, hc]
    | some code =>
      rw [badCodeLineB, hc] at hbad
      have hb : code < 0 ∨ code > 1071 := of_decide_eq_true hbad
      simp [if_pos hb, badErr, hc]
  | v :: r =>
    simp only [binary_tagger]
    match hc : parseIntBytes bad with
    | none => simp [badErr, hc]
    | some code =>
      rw [badCodeLineB, hc] at hbad
      have hb : code < 0 ∨ code > 1071 := of_decide_eq_true hbad
      simp [if_pos hb, badErr, hc]

/-- C8: on a stream of well-formed line pairs followed by a bad code line
(unparseable, or out of the range [0, 1071]), the tokenizer yields exactly
the tags of the well-formed prefix and raises the malformed-tag structure
error at the bad line; nothing after the bad line is ever produced (the
result does not depend on `rest`), so the stop is hard. -/
theorem c8_malformed_tag_stop (enc : String) (pairs : List (Line × Line))
    (bad : Line) (rest : List Line)
    (hwf : ∀ p ∈ pairs, wfCodeLineB p.1 = true)
    (hbad : badCodeLineB bad = true) :
    binary_tagger enc (pairsJoin pairs ++ bad :: rest) =
      (pairs.map (mkTag enc), badErr bad) ∧
    (badErr bad).isMalformedTag = true := by
  constructor
  · rw [bt_wf_pairs enc pairs (bad :: rest) hwf, bt_bad_start enc bad rest hbad]
    simp
  · rw [badErr]
    match parseIntBytes bad with
    | none => rfl
    | some code => rfl

/-- C8 witness: after one well-formed pair, the out-of-range code 2000
stops the tokenizer with the malformed-tag error; the tags are those of
the prefix only, whatever follows. -/
theorem c8_malformed_tag_stop_witness :
    binary_tagger "cp1252" (pairsJoin [(bsOf "  0\r\n", bsOf "LINE\r\n")] ++
        bsOf "2000\r\n" :: [bsOf "junk\r\n"]) =
      ([⟨0, "LINE"⟩], .invalidGroupCode (some 2000)) := by
  have h := c8_malformed_tag_stop "cp1252" [(bsOf "  0\r\n", bsOf "LINE\r\n")]
    (bsOf "2000\r\n") [bsOf "junk\r\n"] (by decide) (by decide)
  calc binary_tagger "cp1252" (pairsJoin [(bsOf "  0\r\n", bsOf "LINE\r\n")] ++
          bsOf "2000\r\n" :: [bsOf "junk\r\n"])
      = ([(bsOf "  0\r\n", bsOf "LINE\r\n")].map (mkTag "cp1252"), badErr (bsOf "2000\r\n")) := h.1
    _ = ([⟨0, "LINE"⟩], .invalidGroupCode (some 2000)) := by decide

/-! ### C3 — fatal on missing sections -/

/-- A source whose tag stream never contains SECTION/ENTITIES. -/
def noEntSrc : List Line :=
  mkLines [(0, "SECTION"), (2, "HEADER"), (0, "ENDSEC"), (0, "EOF")]

/-- A modern-version source (AC1015) with an ENTITIES section but no
OBJECTS section. -/
def noObjSrc : List Line :=
  mkLines [(0, "SECTION"), (2, "HEADER"), (9, "$ACADVERSION"), (1, "AC1015"),
           (0, "ENDSEC"),
           (0, "SECTION"), (2, "ENTITIES"), (0, "LINE"), (8, "0"),
           (0, "ENDSEC"), (0, "EOF")]

/-- The file structure of a source, for instantiating open-time facts. -/
def fsOf (lines : List Line) : FileStructure :=
  (fileindex_load lines).toOption.getD ⟨"", "", []⟩

/-- The section map records only names carried by code-2 index entries:
with no code-2 entry valued `v` in the scanned index, the map built by
`_load_index` has no binding for `v`. -/
theorem liFold_lookup_none (v : String) :
    ∀ (l : List IndexEntry) (acc : List IndexEntry × List (String × Int)),
      (∀ e ∈ l, ¬(e.code = 2 ∧ e.value = v)) →
      (l.foldl liStep acc).2.lookup v = acc.2.lookup v := by
  intro l
  induction l with
  | nil => intro acc _; rfl
  | cons e rest ih =>
    intro acc h
    have he := h e (by simp)
    have hrest : ∀ x ∈ rest, ¬(x.code = 2 ∧ x.value = v) := fun x hx => h x (by simp [hx])
    rw [List.foldl_cons, ih _ hrest]
    unfold liStep
    by_cases h0 : e.code = 0
    · simp [h0]
    · by_cases h2 : e.code = 2
      · have hv : e.value ≠ v := fun hv => he ⟨h2, hv⟩
        have hb : (v == e.value) = false :=
          beq_eq_false_iff_ne.mpr (fun hh => hv hh.symm)
        simp [h0, h2, dictSet, List.lookup, hb]
      · simp [h0, h2]

/-- C3: whenever the built section map lacks ENTITIES, opening fails with
the ENTITIES missing-section error and zero entities are obtained; when
the detected version is newer than AC1009 and the map lacks OBJECTS,
opening fails with the OBJECTS missing-section error; and a tag stream
never containing a SECTION/ENTITIES header yields a map without
ENTITIES. -/
theorem c3_missing_section (lines : List Line) (fs : FileStructure)
    (hfi : fileindex_load lines = .ok fs) :
    ((load_index_filter fs).2.lookup "ENTITIES" = none →
      IterDXF_open lines = .error .entitiesNotFound ∧ opendxf_entities lines = []) ∧
    ((load_index_filter fs).2.lookup "ENTITIES" ≠ none →
      verGT (load_index_filter fs).1.version "AC1009" = true →
      (load_index_filter fs).2.lookup "OBJECTS" = none →
      IterDXF_open lines = .error .objectsNotFound ∧ opendxf_entities lines = []) ∧
    ((∀ e ∈ fs.index, ¬(e.code = 2 ∧ e.value = "ENTITIES")) →
      (load_index_filter fs).2.lookup "ENTITIES" = none) := by
  refine ⟨?_, ?_, ?_⟩
  · intro hent
    have hop : IterDXF_open lines = .error .entitiesNotFound := by
      simp [IterDXF_open, hfi, hent]
    exact ⟨hop, by simp [opendxf_entities, hop]⟩
  · intro hent hver hobj
    have hop : IterDXF_open lines = .error .objectsNotFound := by
      simp only [IterDXF_open, hfi]
      rcases ho : (load_index_filter fs).2.lookup "ENTITIES" with _ | i
      · exact absurd ho hent
      · simp [ho, hver, hobj]
    exact ⟨hop, by simp [opendxf_entities, hop]⟩
  · intro hnone
    exact liFold_lookup_none "ENTITIES" fs.index ([], []) hnone

/-- C3 witness: a concrete source without any ENTITIES section is rejected
with the ENTITIES missing-section error and yields no entities, and a
concrete AC1015 source without an OBJECTS section is rejected with the
OBJECTS missing-section error. -/
theorem c3_missing_section_witness :
    (IterDXF_open noEntSrc = .error .entitiesNotFound ∧ opendxf_entities noEntSrc = []) ∧
    (IterDXF_open noObjSrc = .error .objectsNotFound ∧ opendxf_entities noObjSrc = []) := by
  constructor
  · exact (c3_missing_section noEntSrc (fsOf noEntSrc) (by decide)).1 (by decide)
  · exact (c3_missing_section noObjSrc (fsOf noObjSrc) (by decide)).2.1
      (by decide) (by decide) (by decide)

/-! ### C5 — close order and lazy OBJECTS terminator check -/

/-- A modern-version source (AC1015) with ENTITIES and a complete OBJECTS
section. -/
def objSrc : List Line :=
  mkLines [(0, "SECTION"), (2, "HEADER"), (9, "$ACADVERSION"), (1, "AC1015"),
           (0, "ENDSEC"),
           (0, "SECTION"), (2, "ENTITIES"), (0, "LINE"), (8, "0"), (0, "ENDSEC"),
           (0, "SECTION"), (2, "OBJECTS"), (0, "DICTIONARY"), (5, "A"),
           (0, "ENDSEC"), (0, "EOF")]

/-- The same modern-version source with the OBJECTS section's end marker
missing. -/
def objBadSrc : List Line :=
  mkLines [(0, "SECTION"), (2, "HEADER"), (9, "$ACADVERSION"), (1, "AC1015"),
           (0, "ENDSEC"),
           (0, "SECTION"), (2, "ENTITIES"), (0, "LINE"), (8, "0"), (0, "ENDSEC"),
           (0, "SECTION"), (2, "OBJECTS"), (0, "DICTIONARY"), (5, "A")]

/-- The opened reader state of a source, for instantiating open-time
facts. -/
def stOf (lines : List Line) : IterState :=
  (IterDXF_open lines).toOption.getD ⟨⟨"", "", []⟩, [], lines⟩

/-- C5: on an opened reader, closing writes the ENTITIES end marker, then
— exactly when the source version is newer than AC1009 — the verbatim
byte range of the source's OBJECTS section (from its SECTION record start
to the start of the record after its ENDSEC), then the end-of-file
marker; a missing OBJECTS end marker surfaces only now, as the
missing-terminator structure error, after the end marker was already
written — not at open time, as the open hypothesis shows. -/
theorem c5_close_order (lines : List Line) (st : IterState)
    (_hopen : IterDXF_open lines = .ok st) :
    (verGT st.structure_.version "AC1009" = false →
      writer_close st = (endsecMark ++ eofMark, none)) ∧
    (∀ obj, verGT st.structure_.version "AC1009" = true →
      copy_objects_section st = .ok obj →
      writer_close st = (endsecMark ++ obj ++ eofMark, none)) ∧
    (verGT st.structure_.version "AC1009" = true →
      copy_objects_section st = .error .endsecObjectsNotFound →
      writer_close st = (endsecMark, some .endsecObjectsNotFound)) ∧
    (∀ si ei s e, st.sections.lookup "OBJECTS" = some si →
      fs_get st.structure_ 0 "ENDSEC" si = some ei →
      pyIdx st.structure_.index si = some s →
      pyIdx st.structure_.index (ei + 1) = some e →
      copy_objects_section st = .ok (readBytes (fileBytes st.lines) s.loc (e.loc - s.loc))) := by
  refine ⟨?_, ?_, ?_, ?_⟩
  · intro hver; simp [writer_close, hver]
  · intro obj hver hcopy; simp [writer_close, hver, hcopy]
  · intro hver hcopy; simp [writer_close, hver, hcopy]
  · intro si ei s e hsi hei hs he
    simp [copy_objects_section, hsi, hei, hs, he]

/-- C5 witness: on the complete AC1015 source the close bytes are the
ENTITIES end marker, the verbatim OBJECTS section and the end-of-file
marker, in that order; the source missing the OBJECTS end marker still
opens without error, and only its close aborts with the
missing-terminator error, after the ENTITIES end marker was written. -/
theorem c5_close_order_witness :
    IterDXF_open objBadSrc = .ok (stOf objBadSrc) ∧
    writer_close (stOf objBadSrc) = (endsecMark, some .endsecObjectsNotFound) ∧
    writer_close (stOf objSrc) =
      (endsecMark ++ (copy_objects_section (stOf objSrc)).toOption.getD [] ++ eofMark,
       none) := by
  refine ⟨by decide, ?_, ?_⟩
  · exact (c5_close_order objBadSrc (stOf objBadSrc) (by decide)).2.2.1
      (by decide) (by decide)
  · exact (c5_close_order objSrc (stOf objSrc) (by decide)).2.1
      ((copy_objects_section (stOf objSrc)).toOption.getD []) (by decide) (by decide)

/-! ### C6 — export copies the byte prefix up to the first entity -/

/-- Entries produced by one scan step sit at the step's byte offset. -/
theorem fiStep_locs (off : Nat) (st : FIState) (c : Line) (v : List Byte)
    (r : List IndexEntry × FIState) (h : fiStep off st c v = .ok r) :
    ∀ e ∈ r.1, e.loc = off := by
  unfold fiStep at h
  split at h
  · cases h
  · split at h
    · cases h
    · split at h
      · cases h
        intro e he
        simp at he
        rw [he]
      · split at h
        · cases h
          intro e he
          simp at he
          rw [he]
        · cases h
          intro e he
          simp at he

/-- The offset of line `k + 2` counted from a stream growing by two
lines. -/
theorem location_cons2 (c v : Line) (rest : List Line) (k : Nat) :
    location (c :: v :: rest) (k + 2) = c.length + v.length + location rest k := by
  simp [location, List.take]
  omega

/-- Every index entry the builder produces sits at a line-boundary byte
offset of the scanned stream. -/
theorem fiGo_locs :
    ∀ (ls : List Line) (off : Nat) (st : FIState) (r : List IndexEntry × HdrState),
      fiGo off st ls = .ok r → ∀ e ∈ r.1, ∃ k, e.loc = off + location ls k := by
  intro ls
  induction ls using twoStepInduction with
  | h0 =>
    intro off st r h e he
    cases h
    simp at he
  | h1 c =>
    intro off st r h e he
    unfold fiGo at h
    split at h
    · cases h
    · rename_i p hs
      cases h
      exact ⟨0, by rw [fiStep_locs off st c _ p hs e he]; simp [location]⟩
  | h2 c v rest ih =>
    intro off st r h e he
    unfold fiGo at h
    split at h
    · cases h
    · rename_i p hs
      split at h
      · cases h
      · rename_i p2 hg
        cases h
        simp at he
        rcases he with he | he
        · exact ⟨0, by rw [fiStep_locs off st c _ p hs e he]; simp [location]⟩
        · rcases ih (off + c.length + v.length) p.2 p2 hg e he with ⟨k, hk⟩
          exact ⟨k + 2, by rw [hk, location_cons2]; omega⟩

/-- The filtered index of `_load_index` keeps only entries of the scanned
index. -/
theorem liFold_index_subset :
    ∀ (l : List IndexEntry) (acc : List IndexEntry × List (String × Int)) (e : IndexEntry),
      e ∈ (l.foldl liStep acc).1 → e ∈ acc.1 ∨ e ∈ l := by
  intro l
  induction l with
  | nil => intro acc e h; exact Or.inl h
  | cons x rest ih =>
    intro acc e h
    rw [List.foldl_cons] at h
    rcases ih (liStep acc x) e h with h1 | h1
    · unfold liStep at h1
      by_cases h0 : x.code = 0
      · rw [if_pos h0] at h1
        simp at h1
        rcases h1 with h1 | h1
        · exact Or.inl h1
        · exact Or.inr (by simp [h1])
      · rw [if_neg h0] at h1
        by_cases h2 : x.code = 2
        · rw [if_pos h2] at h1; exact Or.inl h1
        · rw [if_neg h2] at h1; exact Or.inl h1
    · exact Or.inr (by simp [h1])

/-- A successful sequence access returns a member of the sequence. -/
theorem pyIdx_mem {α : Type} (l : List α) (i : Int) (a : α) (h : pyIdx l i = some a) :
    a ∈ l := by
  unfold pyIdx at h
  by_cases h0 : 0 ≤ i
  · rw [if_pos h0] at h; exact List.get?_mem h
  · rw [if_neg h0] at h
    by_cases h1 : (-i).toNat ≤ l.length
    · rw [if_pos h1] at h; exact List.get?_mem h
    · rw [if_neg h1] at h; cases h

/-- Truncating the stream's bytes at a line-boundary offset is the same as
concatenating the lines before the boundary. -/
theorem take_location_join :
    ∀ (k : Nat) (lines : List Line),
      (fileBytes lines).take (location lines k) = fileBytes (lines.take k) := by
  intro k
  induction k with
  | zero => intro lines; simp [location, fileBytes]
  | succ n ih =>
    intro lines
    match lines with
    | [] => simp [location, fileBytes]
    | l :: rest =>
      have hloc : location (l :: rest) (n + 1) = l.length + location rest n := by
        simp [location, List.take]
      rw [hloc]
      show (l ++ (fileBytes rest)).take (l.length + location rest n) = _
      rw [List.take_append_eq_append_take,
        List.take_of_length_le (Nat.le_add_right _ _), Nat.add_sub_cancel_left]
      exact congrArg (l ++ ·) (ih rest)

/-- C6: the bytes `IterDXF.export` copies to the new destination are
exactly the source prefix ending at the byte offset of the first record
after the ENTITIES section header: the offset is a line boundary of the
source, and the copied bytes are precisely the source lines before it —
so the destination's pre-entity prefix (HEADER, CLASSES, TABLES, BLOCKS,
and the ENTITIES header itself) is byte-identical to the source's. -/
theorem c6_export_head (lines : List Line) (st : IterState) (d : List Byte)
    (hopen : IterDXF_open lines = .ok st) (hexp : IterDXF_export st = .ok d) :
    ∃ si entry k,
      st.sections.lookup "ENTITIES" = some si ∧
      pyIdx st.structure_.index (si + 1) = some entry ∧
      d = readBytes (fileBytes lines) 0 entry.loc ∧
      entry.loc = location lines k ∧
      d = fileBytes (lines.take k) := by
  unfold IterDXF_open at hopen
  split at hopen
  · cases hopen
  · rename_i fs hfi
    split at hopen
    · cases hopen
    · split at hopen
      · cases hopen
      · cases hopen
        unfold IterDXF_export at hexp
        match hsi : (load_index_filter fs).2.lookup "ENTITIES" with
        | none => simp [hsi] at hexp
        | some si =>
          simp only [hsi] at hexp
          match hpe : pyIdx (load_index_filter fs).1.index (si + 1) with
          | none => simp [hpe] at hexp
          | some entry =>
            simp only [hpe] at hexp
            cases hexp
            have hmem : entry ∈ fs.index := by
              have h1 := pyIdx_mem _ _ _ hpe
              have h2 := liFold_index_subset fs.index ([], []) entry
              rcases h2 (by simpa [load_index_filter] using h1) with h | h
              · simp at h
              · exact h
            have hloc : ∃ k, entry.loc = location lines k := by
              unfold fileindex_load at hfi
              match hgo : fiGo 0 {} lines with
              | .error er => rw [hgo] at hfi; cases hfi
              | .ok r =>
                rw [hgo] at hfi
                cases hfi
                rcases fiGo_locs lines 0 {} r hgo entry hmem with ⟨k, hk⟩
                exact ⟨k, by rw [hk]; omega⟩
            rcases hloc with ⟨k, hk⟩
            refine ⟨si, entry, k, rfl, hpe, rfl, hk, ?_⟩
            rw [hk]
            show ((fileBytes lines).drop 0).take (location lines k) = _
            rw [List.drop_zero]
            exact take_location_join k lines

/-- C6 witness: on the concrete modern-version source the exported prefix
is the concatenation of the source's first 18 lines — everything before
the LINE record that follows the ENTITIES section header. -/
theorem c6_export_head_witness :
    ∃ si entry k,
      (stOf objSrc).sections.lookup "ENTITIES" = some si ∧
      pyIdx (stOf objSrc).structure_.index (si + 1) = some entry ∧
      (IterDXF_export (stOf objSrc)).toOption.getD [] =
        readBytes (fileBytes objSrc) 0 entry.loc ∧
      entry.loc = location objSrc k ∧
      (IterDXF_export (stOf objSrc)).toOption.getD [] = fileBytes (objSrc.take k) :=
  c6_export_head objSrc (stOf objSrc) ((IterDXF_export (stOf objSrc)).toOption.getD [])
    (by decide) (by decide)

/-! ### C7 — skip-safety of unsupported record types -/

/-- The indexed walk builds exactly the entities of its supported records:
a successful raw-record walk determines `load_entities`. -/
theorem load_entities_char :
    ∀ (fuel : Nat) (st : IterState) (idx : Int) (rs : List (String × List Byte)),
      records_of_go st idx fuel = .ok rs →
      load_entities_go st idx fuel = yieldRecords st.structure_.encoding rs := by
  intro fuel
  induction fuel with
  | zero => intro st idx rs h; cases h
  | succ n ih =>
    intro st idx rs h
    unfold records_of_go at h
    unfold load_entities_go
    match hp : pyIdx st.structure_.index idx with
    | none => simp [hp] at h
    | some entry =>
      simp only [hp] at h ⊢
      by_cases hend : entry.value = "ENDSEC"
      · rw [if_pos hend] at h
        rw [if_pos hend]
        cases h
        rfl
      · rw [if_neg hend] at h
        rw [if_neg hend]
        match hn : pyIdx st.structure_.index (idx + 1) with
        | none => simp [hn] at h
        | some nxt =>
          simp only [hn] at h ⊢
          match hr : records_of_go st (idx + 1) n with
          | .error e => simp [hr] at h
          | .ok r =>
            simp only [hr] at h
            cases h
            conv_rhs => rw [yieldRecords]
            by_cases hs : entry.value ∈ SUPPORTED_DXF_TYPES
            · rw [if_pos hs, if_pos hs, ih st (idx + 1) r hr]
            · rw [if_neg hs, if_neg hs]
              exact ih st (idx + 1) r hr

/-- An unsupported record anywhere in the raw record stream contributes
nothing to the built entities. -/
theorem yieldRecords_skip (enc : String) (u : String) (ub : List Byte)
    (hu : u ∉ SUPPORTED_DXF_TYPES) :
    ∀ (A B : List (String × List Byte)),
      yieldRecords enc (A ++ (u, ub) :: B) = yieldRecords enc (A ++ B) := by
  intro A
  induction A with
  | nil =>
    intro B
    show yieldRecords enc ((u, ub) :: B) = yieldRecords enc B
    rw [yieldRecords, if_neg hu]
  | cons a A ih =>
    intro B
    match a with
    | (v, data) =>
      simp only [List.cons_append]
      conv_lhs => rw [yieldRecords]
      conv_rhs => rw [yieldRecords]
      rw [ih B]

/-- Accumulating non-structural tags only grows the pending record. -/
theorem spLoop_body_skip :
    ∀ (body : List STag) (st : SPState) (rest : List STag) (te : DXFErr),
      st.entities = true → (∀ t ∈ body, t.code ≠ 0) →
      spLoop st (body ++ rest) te = spLoop { st with tagAcc := st.tagAcc ++ body } rest te := by
  intro body
  induction body with
  | nil => intro st rest te _ _; simp
  | cons t bs ih =>
    intro st rest te hent hb
    have ht : t.code ≠ 0 := hb t (by simp)
    have hbs : ∀ x ∈ bs, x.code ≠ 0 := fun x hx => hb x (by simp [hx])
    show spLoop st (t :: (bs ++ rest)) te = _
    rw [spLoop]
    simp only [hent, eq_self_iff_true, if_true]
    rw [if_neg (fun hc => ht hc.1), if_neg ht]
    rw [ih ⟨st.prevCode, st.prevValue, st.structRec, st.tagAcc ++ [t], true,
          st.encoding, st.version, st.lq⟩ rest te rfl hbs]
    simp

/-- Inside the ENTITIES section, an unsupported record (its code-0 head
and non-structural body) followed by the start of another record is
invisible to the single-pass loop: it is never compiled and never
yielded, and the loop state afterwards is the same. -/
theorem spLoop_skip_unsupported (st : SPState) (u : String) (body : List STag)
    (w : String) (rest : List STag) (te : DXFErr)
    (hent : st.entities = true) (hu : u ∉ SUPPORTED_DXF_TYPES) (hune : u ≠ "ENDSEC")
    (hw : w ≠ "ENDSEC") (hbody : ∀ t ∈ body, t.code ≠ 0) :
    spLoop st (⟨0, u⟩ :: (body ++ ⟨0, w⟩ :: rest)) te = spLoop st (⟨0, w⟩ :: rest) te := by
  conv_lhs => rw [spLoop]
  conv_rhs => rw [spLoop]
  simp only [hent, eq_self_iff_true, true_and, if_true, if_neg hune, if_neg hw]
  by_cases hc : st.tagAcc ≠ [] ∧ st.structRec ∈ SUPPORTED_DXF_TYPES
  · simp only [if_pos hc]
    cases hp : processRecord st.lq (factory_entity st.tagAcc) with
    | error e => rfl
    | ok pr =>
      dsimp only
      rw [spLoop_body_skip body _ (⟨0, w⟩ :: rest) te rfl hbody]
      conv_lhs => rw [spLoop]
      simp only [eq_self_iff_true, true_and, if_true, if_neg hw]
      rw [if_neg (fun hc2 => hu hc2.2)]
  · simp only [if_neg hc]
    rw [spLoop_body_skip body _ (⟨0, w⟩ :: rest) te rfl hbody]
    conv_lhs => rw [spLoop]
    simp only [eq_self_iff_true, true_and, if_true, if_neg hw]
    rw [if_neg (fun hc2 => hu hc2.2)]

/-- C7: unsupported record types are skipped without being compiled or
yielded, in both modes.  Indexed mode: two opened sources whose ENTITIES
record walks differ only by one unsupported record produce the same
modelspace entity sequence.  Single-pass mode: from any state inside the
ENTITIES section, an unsupported record inserted before the start of a
following record leaves the loop's output unchanged. -/
theorem c7_skip_safety (st1 st2 : IterState) (s1 s2 : Int)
    (A B : List (String × List Byte)) (u : String) (ub : List Byte)
    (sp : SPState) (body : List STag) (w : String) (rest : List STag) (te : DXFErr)
    (hs1 : st1.sections.lookup "ENTITIES" = some s1)
    (hs2 : st2.sections.lookup "ENTITIES" = some s2)
    (henc : st1.structure_.encoding = st2.structure_.encoding)
    (hr1 : records_of st1 (s1 + 1) = .ok (A ++ (u, ub) :: B))
    (hr2 : records_of st2 (s2 + 1) = .ok (A ++ B))
    (hu : u ∉ SUPPORTED_DXF_TYPES)
    (hent : sp.entities = true) (hune : u ≠ "ENDSEC") (hw : w ≠ "ENDSEC")
    (hbody : ∀ t ∈ body, t.code ≠ 0) :
    modelspace st1 = modelspace st2 ∧
    spLoop sp (⟨0, u⟩ :: (body ++ ⟨0, w⟩ :: rest)) te = spLoop sp (⟨0, w⟩ :: rest) te := by
  constructor
  · have h1 : load_entities st1 (s1 + 1) =
        yieldRecords st1.structure_.encoding (A ++ (u, ub) :: B) :=
      load_entities_char _ st1 (s1 + 1) _ hr1
    have h2 : load_entities st2 (s2 + 1) =
        yieldRecords st2.structure_.encoding (A ++ B) :=
      load_entities_char _ st2 (s2 + 1) _ hr2
    have h3 : load_entities st1 (s1 + 1) = load_entities st2 (s2 + 1) := by
      rw [h1, h2, henc, yieldRecords_skip st2.structure_.encoding u ub hu]
    simp [modelspace, hs1, hs2, h3]
  · exact spLoop_skip_unsupported sp u body w rest te hent hu hune hw hbody

/-- A source whose ENTITIES section holds LINE, then the unsupported
DIMENSION, then CIRCLE. -/
def skipSrc1 : List Line :=
  mkLines [(0, "SECTION"), (2, "HEADER"), (0, "ENDSEC"),
           (0, "SECTION"), (2, "ENTITIES"),
           (0, "LINE"), (8, "0"), (0, "DIMENSION"), (8, "0"), (0, "CIRCLE"), (8, "0"),
           (0, "ENDSEC"), (0, "EOF")]

/-- The same source without the DIMENSION record. -/
def skipSrc2 : List Line :=
  mkLines [(0, "SECTION"), (2, "HEADER"), (0, "ENDSEC"),
           (0, "SECTION"), (2, "ENTITIES"),
           (0, "LINE"), (8, "0"), (0, "CIRCLE"), (8, "0"),
           (0, "ENDSEC"), (0, "EOF")]

/-- The shared prefix of both sources' ENTITIES record walks. -/
def c7A : List (String × List Byte) := [("LINE", bsOf "0\r\nLINE\r\n8\r\n0\r\n")]

/-- The shared suffix of both sources' ENTITIES record walks. -/
def c7B : List (String × List Byte) := [("CIRCLE", bsOf "0\r\nCIRCLE\r\n8\r\n0\r\n")]

/-- The raw bytes of the inserted unsupported DIMENSION record. -/
def c7ub : List Byte := bsOf "0\r\nDIMENSION\r\n8\r\n0\r\n"

/-- A single-pass loop state inside the ENTITIES section with a pending
LINE record. -/
def c7sp : SPState :=
  ⟨-1, "", "LINE", [⟨0, "LINE"⟩], true, "cp1252", "AC1009", {}⟩

/-- C7 witness: on the two concrete sources differing by the DIMENSION
record the indexed modelspaces agree, and the single-pass loop gives the
same output with and without the inserted DIMENSION tags. -/
theorem c7_skip_safety_witness :
    modelspace (stOf skipSrc1) = modelspace (stOf skipSrc2) ∧
    spLoop c7sp (⟨0, "DIMENSION"⟩ :: ([⟨8, "0"⟩] ++ ⟨0, "CIRCLE"⟩ :: [⟨0, "ENDSEC"⟩]))
        (.invalidGroupCode none) =
      spLoop c7sp (⟨0, "CIRCLE"⟩ :: [⟨0, "ENDSEC"⟩]) (.invalidGroupCode none) :=
  c7_skip_safety (stOf skipSrc1) (stOf skipSrc2) 2 2 c7A c7B "DIMENSION" c7ub
    c7sp [⟨8, "0"⟩] "CIRCLE" [⟨0, "ENDSEC"⟩] (.invalidGroupCode none)
    (by decide) (by decide) (by decide) (by decide) (by decide) (by decide)
    (by decide) (by decide) (by decide) (by decide)

end IterDXFVerify
